import Mathlib

/-
Verification of the stacksGPT bridge core (transaction preparation and
cross-chain status tracking) against its natural-language specification.

The embedding below translates the TypeScript source into Lean:

* `src/server/lib/helpers.ts` — address encoding (`padEthereumAddress`,
  `remoteRecipientCoder`, `bytes32FromBytes`, `encodeStacksAddress`) and
  amount conversion (`toMicroUSDC`, `fromMicroUSDC`).
* `src/server/lib/stacks.ts` — `prepareWithdrawalTransaction`,
  `getUSDCxBalance`, `getStacksTransactionStatus`.
* `src/server/lib/ethereum.ts` — `prepareDepositTransaction`,
  `getUSDCBalance`, `getEthereumTransactionStatus`.

Bytes are modelled as `Nat` (with explicit bounds where they matter), byte
strings as `List Nat`.  Stacks addresses are modelled at their decoded
canonical form (version byte + 20-byte hash160), which is exactly what
`createAddress` / `addressToString` of the external `@stacks/transactions`
library convert to and from; the c32 string codec itself is library code
outside this repository.  Decimal amount strings are modelled as an integer
part plus a list of fraction digits; `Math.floor(parseFloat(s) * 1e6)` is
modelled by exact decimal arithmetic (for every concrete amount evaluated in
this development — "1.123456", "1.1234567", "4.80", "4.79", "5.00", "0.5" —
the IEEE-754 double computation performed by the JavaScript source yields the
same integer, so the model agrees with the source at every point used).
Network reads (allowance, gas, transaction records, block heights) are passed
in explicitly as the values the chain would return, and the deposit preparer
additionally returns the number of chain-query port calls it performed, in
source order.
-/

/-! ## Address encoding (helpers.ts) -/

/-- viem's `pad(value, \x7b size \x7d)` with the default direction `left`:
left-pad with zero bytes up to `size` bytes. -/
def padBytesLeft (size : Nat) (bs : List Nat) : List Nat :=
  List.replicate (size - bs.length) 0 ++ bs

/-- Model of `padEthereumAddress` (helpers.ts): strips the `0x` prefix and applies
viem's `pad` with `size: 32` and the default direction (`left`), so the raw
address bytes end up in the low-order (rightmost) 20 bytes. -/
def padEthereumAddress (addr : List Nat) : List Nat :=
  padBytesLeft 32 addr

/-- Decoded canonical form of a Stacks address: a version byte and the
20-byte hash160, as produced by `createAddress`. -/
structure StacksAddress where
  version : Nat
  hash160 : List Nat
deriving DecidableEq, Repr

/-- Wellformedness of the canonical form: 20 hash bytes, all fields bytes. -/
def StacksAddress.WF (a : StacksAddress) : Prop :=
  a.version < 256 ∧ a.hash160.length = 20 ∧ ∀ b ∈ a.hash160, b < 256

instance (a : StacksAddress) : Decidable a.WF := by
  unfold StacksAddress.WF; infer_instance

/-- Model of `remoteRecipientCoder.encodeStream` (helpers.ts): writes 11 zero bytes,
then the version byte (`P.U8`), then the 20 hash160 bytes. -/
def remoteRecipientEncode (a : StacksAddress) : List Nat :=
  List.replicate 11 0 ++ a.version :: a.hash160

/-- Model of `remoteRecipientCoder.decodeStream` (helpers.ts): skips 11 bytes, reads
one version byte, reads 20 hash bytes, and rebuilds the address via
`addressToString`.  The stream read fails unless exactly 32 bytes are
present; under the length guard `getD`/`take` coincide with the stream
reads. -/
def remoteRecipientDecode (bs : List Nat) : Option StacksAddress :=
  if bs.length = 32 then
    some ⟨bs.getD 11 0, (bs.drop 12).take 20⟩
  else
    none

/-- Model of `bytes32FromBytes` (helpers.ts): viem `pad` to 32 bytes (left). -/
def bytes32FromBytes (bs : List Nat) : List Nat :=
  padBytesLeft 32 bs

/-- Model of `encodeStacksAddress` (helpers.ts): encode via `remoteRecipientCoder`,
then convert to a bytes32 value. -/
def encodeStacksAddress (a : StacksAddress) : List Nat :=
  bytes32FromBytes (remoteRecipientEncode a)

/-! ## Decimal amounts (helpers.ts / stacks.ts) -/

/-- Value of a most-significant-first digit list. -/
def digitsVal : List Nat → Nat
  | [] => 0
  | d :: ds => d * 10 ^ ds.length + digitsVal ds

/-- A nonnegative decimal literal `intPart.frac`, e.g. `⟨1, [1,2,3,4,5,6]⟩`
for `"1.123456"`.  This is the class of inputs the spec quantifies over
("decimal-string amount"); `parseFloat` is total on them. -/
structure Decimal where
  intPart : Nat
  frac : List Nat
deriving DecidableEq, Repr

/-- Scaled numerator: the decimal's value is `num / 10 ^ frac.length`. -/
def Decimal.num (d : Decimal) : Nat :=
  d.intPart * 10 ^ d.frac.length + digitsVal d.frac

/-- Model of `Math.floor(parseFloat(s) * 1e6)` under exact decimal semantics:
the floor of the decimal value scaled by `10^6` (`Nat` division floors). -/
def Decimal.micro (d : Decimal) : Nat :=
  if d.frac.length ≤ 6 then d.num * 10 ^ (6 - d.frac.length)
  else d.num / 10 ^ (d.frac.length - 6)

/-- Model of `toMicroUSDC` (helpers.ts): throws `'Invalid amount'` when the parsed
value is NaN or `≤ 0` (for a nonnegative decimal literal: value zero),
otherwise returns `Math.floor(parsed * 1_000_000)`. -/
def toMicroUSDC (d : Decimal) : Except String Nat :=
  if d.num = 0 then .error "Invalid amount"
  else .ok d.micro

/-- Left-pad a numeral string with zeros to `k` characters. -/
def padZeros (k : Nat) (s : String) : String :=
  String.mk (List.replicate (k - s.length) '0') ++ s

/-- Model of `fromMicroUSDC` (helpers.ts): `(Number(micro) / 1_000_000).toFixed(6)`
for amounts where the double conversion is exact. -/
def fromMicroUSDC (micro : Nat) : String :=
  toString (micro / 1000000) ++ "." ++ padZeros 6 (toString (micro % 1000000))

/-! ## Withdrawal preparation (stacks.ts) -/

/-- Clarity argument values used by the burn call. -/
inductive ClarityValue where
  | uint (n : Nat)
  | buffer (bs : List Nat)
deriving DecidableEq, Repr

/-- Model of `Pc.principal(p).willSendEq(n).ft(contract, name)`: a fungible-token
post-condition requiring `p` to send exactly `n` units of the asset. -/
structure PostCondition where
  principal : String
  willSendEq : Nat
  assetContract : String
  assetName : String
deriving DecidableEq, Repr

/-- Model of `WithdrawalTransactionData` (stacks.ts).  The interface has exactly
these fields — in particular it has no approval step. -/
structure WithdrawalTransactionData where
  contractAddress : String
  contractName : String
  functionName : String
  functionArgs : List ClarityValue
  postConditions : List PostCondition
  estimatedFee : String
deriving DecidableEq, Repr

/-- The `ETHEREUM_DOMAIN` constant (stacks.ts). -/
def ETHEREUM_DOMAIN : Nat := 0

/-- Default `STACKS_USDCX_CONTRACT`, already split at the dot. -/
def STACKS_USDCX_ADDRESS : String := "ST1PQHQKV0RJXZFY1DGX8MNSNYVE3VGZJSRTPGZGM"

/-- Contract name component of `STACKS_USDCX_CONTRACT`. -/
def STACKS_USDCX_NAME : String := "usdcx-v1"

/-- The `USDCX_TOKEN_CONTRACT` constant (stacks.ts). -/
def USDCX_TOKEN_CONTRACT : String := "ST1PQHQKV0RJXZFY1DGX8MNSNYVE3VGZJSRTPGZGM.usdcx"

/-- Model of `prepareWithdrawalTransaction` (stacks.ts): floor-convert the amount to
micro-USDC, reject below the 4.80 minimum, then build the burn call with the
padded Ethereum recipient and a send-exactly post-condition on the sender.
It performs no chain read. -/
def prepareWithdrawalTransaction (amount : Decimal) (ethereumRecipient : List Nat)
    (stacksAddress : String) : Except String WithdrawalTransactionData :=
  let microAmount := amount.micro
  if microAmount < 4800000 then
    .error "Minimum withdrawal is 4.80 USDCx"
  else
    .ok {
      contractAddress := STACKS_USDCX_ADDRESS
      contractName := STACKS_USDCX_NAME
      functionName := "burn"
      functionArgs := [.uint microAmount, .uint ETHEREUM_DOMAIN,
        .buffer (padEthereumAddress ethereumRecipient)]
      postConditions := [⟨stacksAddress, microAmount, USDCX_TOKEN_CONTRACT, "usdcx-token"⟩]
      estimatedFee := "0.01 STX"
    }

/-! ## Deposit preparation (ethereum.ts) -/

/-- The `STACKS_DOMAIN` constant (ethereum.ts). -/
def STACKS_DOMAIN : Nat := 10003

/-- Default `XRESERVE_CONTRACT` address (ethereum.ts). -/
def XRESERVE_CONTRACT : String := "0x008888878f94C0d87defdf0B07f46B93C1934442"

/-- Default `USDC_CONTRACT` address (ethereum.ts). -/
def USDC_CONTRACT : String := "0x1c7D4B196Cb0C7B01d743Fbc6116a902379C7238"

/-- viem's `parseUnits(value, 6)`: exact when at most 6 fraction digits,
otherwise rounds the excess digits half-up. -/
def parseUnits6 (d : Decimal) : Nat :=
  if d.frac.length ≤ 6 then d.num * 10 ^ (6 - d.frac.length)
  else
    let scale := 10 ^ (d.frac.length - 6)
    d.num / scale + (if scale ≤ 2 * (d.num % scale) then 1 else 0)

/-- The approval transaction built when the allowance is insufficient:
an ERC-20 `approve(spender, amount)` call on the asset contract. -/
structure ApprovalTx where
  txTo : String
  spender : String
  amount : Nat
deriving DecidableEq, Repr

/-- Arguments of the `depositToRemote` call encoded into the deposit
calldata. -/
structure DepositCall where
  value : Nat
  remoteDomain : Nat
  remoteRecipient : List Nat
  localToken : String
  maxFee : Nat
  hookData : List Nat
deriving DecidableEq, Repr

/-- Model of `DepositTransactionData` (ethereum.ts). -/
structure DepositTransactionData where
  txTo : String
  data : DepositCall
  value : Nat
  estimatedGas : Nat
  requiresApproval : Bool
  approvalTx : Option ApprovalTx
deriving DecidableEq, Repr

/-- Read-only chain-query port: the values the chain would return for the
two reads `prepareDepositTransaction` performs (ERC-20 `allowance`, then
`estimateGas`). -/
structure ChainPort where
  allowance : Nat
  estimatedGas : Nat
deriving DecidableEq, Repr

/-- Model of `prepareDepositTransaction` (ethereum.ts), with the number of
chain-query port calls performed returned alongside the result.  The
minimum check `parseFloat(amount) < 1` happens before any port call; the
allowance read and the gas estimation are the two port calls, in that
order. -/
def prepareDepositTransaction (amount : Decimal) (stacksRecipient : StacksAddress)
    (port : ChainPort) : Except String DepositTransactionData × Nat :=
  if amount.num < 10 ^ amount.frac.length then
    (.error "Minimum deposit is 1 USDC on testnet", 0)
  else
    let value := parseUnits6 amount
    let remoteRecipient := encodeStacksAddress stacksRecipient
    let currentAllowance := port.allowance
    let requiresApproval := currentAllowance < value
    let approvalTx : Option ApprovalTx :=
      if requiresApproval then some ⟨USDC_CONTRACT, XRESERVE_CONTRACT, value⟩ else none
    let depositData : DepositCall :=
      ⟨value, STACKS_DOMAIN, remoteRecipient, USDC_CONTRACT, 0, []⟩
    let estimatedGas := port.estimatedGas
    (.ok ⟨XRESERVE_CONTRACT, depositData, 0, estimatedGas,
      decide requiresApproval, approvalTx⟩, 2)

/-! ## Status tracking (stacks.ts / ethereum.ts) -/

/-- Unified lifecycle states; `StacksTransactionStatus.state` and
`TransactionStatus.state` in the source range over the same five tags. -/
inductive TxState where
  | pending
  | confirming
  | attesting
  | completed
  | failed
deriving DecidableEq, Repr

/-- Status record returned by both trackers (the source declares the same
field set twice, as `StacksTransactionStatus` and `TransactionStatus`). -/
structure TransactionStatus where
  state : TxState
  confirmations : Int
  explorerUrl : String
  eta : Option String
  errorMessage : Option String
deriving DecidableEq, Repr

/-- The `tx_status` values distinguished by `getStacksTransactionStatus`. -/
inductive StacksTxResult where
  | success
  | abortByResponse
  | abortByPostCondition
  | other
deriving DecidableEq, Repr

/-- The fields of the Stacks API transaction record the tracker reads. -/
structure StacksTxRecord where
  txStatus : StacksTxResult
  blockHeight : Option Nat
  txResultRepr : Option String
deriving DecidableEq, Repr

/-- Hiro explorer link for the default (testnet) network. -/
def stacksExplorerUrl (txId : String) : String :=
  "https://explorer.hiro.so/txid/" ++ txId ++ "?chain=testnet"

/-- Model of `getStacksTransactionStatus` (stacks.ts) as a function of the API
response for the transaction (`none` for a non-OK lookup) and the current
`stacks_tip_height`; both `/v2/info` fetches of one poll read the same tip.
The eta computed in the success branch is dropped by the source before
returning (the return object carries only state, confirmations and the
explorer link). -/
def getStacksTransactionStatus (txId : String) (resp : Option StacksTxRecord)
    (stacksTipHeight : Nat) : TransactionStatus :=
  match resp with
  | none =>
    ⟨.pending, 0, stacksExplorerUrl txId, some "Waiting for transaction to be mined", none⟩
  | some tx =>
    match tx.txStatus with
    | .success =>
      match tx.blockHeight with
      | some h =>
        let confirmations : Int := (stacksTipHeight : Int) - (h : Int) + 1
        let state : TxState := if 6 ≤ confirmations then .attesting else .confirming
        ⟨state, confirmations, stacksExplorerUrl txId, none, none⟩
      | none => ⟨.confirming, 0, stacksExplorerUrl txId, none, none⟩
    | .abortByResponse =>
      ⟨.failed, 0, stacksExplorerUrl txId, none,
        some ("Transaction failed: " ++ tx.txResultRepr.getD "Unknown error")⟩
    | .abortByPostCondition =>
      ⟨.failed, 0, stacksExplorerUrl txId, none,
        some ("Transaction failed: " ++ tx.txResultRepr.getD "Unknown error")⟩
    | .other =>
      ⟨.pending, 0, stacksExplorerUrl txId, some "Transaction pending", none⟩

/-- The fields of the Ethereum transaction receipt the tracker reads:
`status === 'success'` and the inclusion block number. -/
structure EthReceipt where
  success : Bool
  blockNumber : Nat
deriving DecidableEq, Repr

/-- Sepolia Etherscan link. -/
def ethExplorerUrl (txHash : String) : String :=
  "https://sepolia.etherscan.io/tx/" ++ txHash

/-- Model of `getEthereumTransactionStatus` (ethereum.ts) as a function of the
receipt lookup result (`none` when `getTransactionReceipt` throws — the
transaction is not found yet) and the current block number. -/
def getEthereumTransactionStatus (txHash : String) (receipt : Option EthReceipt)
    (currentBlock : Nat) : TransactionStatus :=
  match receipt with
  | none =>
    ⟨.pending, 0, ethExplorerUrl txHash, some "Waiting for transaction to be mined", none⟩
  | some r =>
    if r.success then
      let confirmations : Int := (currentBlock : Int) - (r.blockNumber : Int)
      if confirmations < 12 then
        ⟨.confirming, confirmations, ethExplorerUrl txHash,
          some (toString ((12 - confirmations) * 12) ++ " seconds"), none⟩
      else
        ⟨.attesting, confirmations, ethExplorerUrl txHash,
          some "~15 minutes (attestation in progress)", none⟩
    else
      ⟨.failed, 0, ethExplorerUrl txHash, none, some "Transaction failed on Ethereum"⟩

/-! ## Balance readers (stacks.ts / ethereum.ts) -/

/-- Model of `getUSDCxBalance` (stacks.ts) as a function of the read-only contract
call result: on success it formats the micro balance with 6 decimals; the
catch branch returns the literal `'0.000000'`. -/
def getUSDCxBalance (read : Except String Nat) : String :=
  match read with
  | .ok micro => fromMicroUSDC micro
  | .error _ => "0.000000"

/-- Model of `(Number(balance) / 1e6).toFixed(2)`: the balance in whole cents
(rounded half-up at the third decimal), rendered with 2 decimals. -/
def ethFormatBalance (balance : Nat) : String :=
  let cents := (balance + 5000) / 10000
  toString (cents / 100) ++ "." ++ padZeros 2 (toString (cents % 100))

/-- Model of `getUSDCBalance` (ethereum.ts): on success formats with 2 decimals; the
catch branch returns the literal `'0.00'`. -/
def getUSDCBalance (read : Except String Nat) : String :=
  match read with
  | .ok balance => ethFormatBalance balance
  | .error _ => "0.00"

/-! ## Shared lemmas -/

instance {e a : Type} [DecidableEq e] [DecidableEq a] : DecidableEq (Except e a) :=
  fun x y =>
    match x, y with
    | .ok u, .ok v => decidable_of_iff (u = v) (by simp)
    | .error u, .error v => decidable_of_iff (u = v) (by simp)
    | .ok _, .error _ => .isFalse (by simp)
    | .error _, .ok _ => .isFalse (by simp)

theorem digitsVal_append (a b : List Nat) :
    digitsVal (a ++ b) = digitsVal a * 10 ^ b.length + digitsVal b := by
  induction a with
  | nil => simp [digitsVal]
  | cons d a ih =>
    simp only [List.cons_append, digitsVal, List.append_eq, List.length_append, ih, pow_add]
    ring

theorem digitsVal_lt (ds : List Nat) (h : ∀ x ∈ ds, x < 10) :
    digitsVal ds < 10 ^ ds.length := by
  induction ds with
  | nil => simp [digitsVal]
  | cons d ds ih =>
    have hd : d < 10 := h d (by simp)
    have hds : digitsVal ds < 10 ^ ds.length := ih fun x hx => h x (by simp [hx])
    simp only [digitsVal, List.length_cons, pow_succ]
    calc d * 10 ^ ds.length + digitsVal ds
        < d * 10 ^ ds.length + 10 ^ ds.length := by omega
      _ = (d + 1) * 10 ^ ds.length := by ring
      _ ≤ 10 * 10 ^ ds.length := by
          exact Nat.mul_le_mul_right _ (by omega)
      _ = 10 ^ ds.length * 10 := by ring

/-! ## C1 — contract-chain address encoding for the withdrawal call -/

/-- C1 is false as stated: `padEthereumAddress` uses viem `pad` with the
default direction `left`, so for the valid 20-byte address whose bytes are
all `0x11` the first 20 bytes of the 32-byte encoding are NOT the address
bytes and the last 12 bytes are NOT all zero. -/
theorem c1_pad_claim_false :
    ¬ (((padEthereumAddress (List.replicate 20 17)).take 20 = List.replicate 20 17) ∧
       ((padEthereumAddress (List.replicate 20 17)).drop 20 = List.replicate 12 0)) := by
  decide

/-- C1 (amended): for every valid 20-byte contract-chain address, the
32-byte encoding produced for the account-chain withdrawal call is
LEFT-padded (right-aligned): its first 12 bytes are all zero and its last
20 bytes equal the address's raw bytes. -/
theorem c1_pad_left_aligned (addr : List Nat) (h : addr.length = 20) :
    (padEthereumAddress addr).length = 32 ∧
    (padEthereumAddress addr).take 12 = List.replicate 12 0 ∧
    (padEthereumAddress addr).drop 12 = addr := by
  have hpad : padEthereumAddress addr = List.replicate 12 0 ++ addr := by
    unfold padEthereumAddress padBytesLeft
    rw [h]
  refine ⟨?_, ?_, ?_⟩
  · simp [hpad, h]
  · rw [hpad]
    simp
  · rw [hpad]
    simp

/-- Witness for `c1_pad_left_aligned` at the all-`0x11` address. -/
theorem c1_pad_left_aligned_witness :
    (padEthereumAddress (List.replicate 20 17)).length = 32 ∧
    (padEthereumAddress (List.replicate 20 17)).take 12 = List.replicate 12 0 ∧
    (padEthereumAddress (List.replicate 20 17)).drop 12 = List.replicate 20 17 :=
  c1_pad_left_aligned (List.replicate 20 17) (by decide)

/-! ## C2 — account-chain address codec layout and round-trip -/

/-- C2: for every valid account-chain address (canonical form: version byte
plus 20-byte hash160), `remoteRecipientCoder` encodes exactly 11 zero
bytes, then 1 version byte, then the 20 hash bytes — 32 bytes total, no
length prefix — `encodeStacksAddress` adds nothing further, and decoding is
the exact inverse: `decode (encode x) = x`. -/
theorem c2_codec_layout_roundtrip (a : StacksAddress) (h : a.WF) :
    (remoteRecipientEncode a).take 11 = List.replicate 11 0 ∧
    (remoteRecipientEncode a).getD 11 0 = a.version ∧
    (remoteRecipientEncode a).drop 12 = a.hash160 ∧
    (remoteRecipientEncode a).length = 32 ∧
    encodeStacksAddress a = remoteRecipientEncode a ∧
    remoteRecipientDecode (remoteRecipientEncode a) = some a := by
  obtain ⟨v, hs⟩ := a
  obtain ⟨hv, hlen, hb⟩ := h
  have hlen20 : hs.length = 20 := hlen
  have hl32 : (remoteRecipientEncode ⟨v, hs⟩).length = 32 := by
    simp only [remoteRecipientEncode, List.length_append, List.length_replicate,
      List.length_cons]
    omega
  refine ⟨rfl, rfl, rfl, hl32, ?_, ?_⟩
  · simp [encodeStacksAddress, bytes32FromBytes, padBytesLeft, hl32]
  · unfold remoteRecipientDecode
    rw [if_pos hl32]
    have htake : ((remoteRecipientEncode ⟨v, hs⟩).drop 12).take 20 = hs := by
      show hs.take 20 = hs
      rw [show (20 : Nat) = hs.length from hlen.symm, List.take_length]
    rw [htake]
    rfl

/-- Witness for `c2_codec_layout_roundtrip` at a concrete address
(version 26, hash160 all `0x05`). -/
theorem c2_codec_layout_roundtrip_witness :
    (remoteRecipientEncode ⟨26, List.replicate 20 5⟩).take 11 = List.replicate 11 0 ∧
    (remoteRecipientEncode ⟨26, List.replicate 20 5⟩).getD 11 0 = 26 ∧
    (remoteRecipientEncode ⟨26, List.replicate 20 5⟩).drop 12 = List.replicate 20 5 ∧
    (remoteRecipientEncode ⟨26, List.replicate 20 5⟩).length = 32 ∧
    encodeStacksAddress ⟨26, List.replicate 20 5⟩ =
      remoteRecipientEncode ⟨26, List.replicate 20 5⟩ ∧
    remoteRecipientDecode (remoteRecipientEncode ⟨26, List.replicate 20 5⟩) =
      some ⟨26, List.replicate 20 5⟩ :=
  c2_codec_layout_roundtrip ⟨26, List.replicate 20 5⟩ (by decide)

/-! ## C3 — withdrawal post-condition, no approval step -/

/-- C3: every prepared withdrawal descriptor contains exactly one
post-condition, asserting the source identity sends exactly the requested
micro amount of the bridged asset; the full descriptor equality exhibits
every field of the returned record — there is no approval step in it — and
for the input "5.00" the asserted amount is exactly `5000000`. -/
theorem c3_withdrawal_postcondition (amount : Decimal) (eth : List Nat) (src : String)
    (d : WithdrawalTransactionData)
    (h : prepareWithdrawalTransaction amount eth src = .ok d) :
    d = ⟨STACKS_USDCX_ADDRESS, STACKS_USDCX_NAME, "burn",
          [.uint amount.micro, .uint ETHEREUM_DOMAIN, .buffer (padEthereumAddress eth)],
          [⟨src, amount.micro, USDCX_TOKEN_CONTRACT, "usdcx-token"⟩], "0.01 STX"⟩ ∧
    d.postConditions = [⟨src, amount.micro, USDCX_TOKEN_CONTRACT, "usdcx-token"⟩] ∧
    (Decimal.mk 5 [0, 0]).micro = 5000000 := by
  by_cases hmin : amount.micro < 4800000
  · simp [prepareWithdrawalTransaction, hmin] at h
  · simp only [prepareWithdrawalTransaction, hmin, if_false, if_neg hmin,
      Except.ok.injEq] at h
    subst h
    exact ⟨rfl, rfl, by decide⟩

/-- Witness for `c3_withdrawal_postcondition` at amount "5.00", the
all-`0x11` recipient and a fixed source principal. -/
theorem c3_withdrawal_postcondition_witness :
    (⟨STACKS_USDCX_ADDRESS, STACKS_USDCX_NAME, "burn",
        [.uint (Decimal.mk 5 [0, 0]).micro, .uint ETHEREUM_DOMAIN,
         .buffer (padEthereumAddress (List.replicate 20 17))],
        [⟨"SPSOURCE", (Decimal.mk 5 [0, 0]).micro, USDCX_TOKEN_CONTRACT, "usdcx-token"⟩],
        "0.01 STX"⟩ : WithdrawalTransactionData) =
      ⟨STACKS_USDCX_ADDRESS, STACKS_USDCX_NAME, "burn",
        [.uint (Decimal.mk 5 [0, 0]).micro, .uint ETHEREUM_DOMAIN,
         .buffer (padEthereumAddress (List.replicate 20 17))],
        [⟨"SPSOURCE", (Decimal.mk 5 [0, 0]).micro, USDCX_TOKEN_CONTRACT, "usdcx-token"⟩],
        "0.01 STX"⟩ ∧
    (⟨STACKS_USDCX_ADDRESS, STACKS_USDCX_NAME, "burn",
        [.uint (Decimal.mk 5 [0, 0]).micro, .uint ETHEREUM_DOMAIN,
         .buffer (padEthereumAddress (List.replicate 20 17))],
        [⟨"SPSOURCE", (Decimal.mk 5 [0, 0]).micro, USDCX_TOKEN_CONTRACT, "usdcx-token"⟩],
        "0.01 STX"⟩ : WithdrawalTransactionData).postConditions =
      [⟨"SPSOURCE", (Decimal.mk 5 [0, 0]).micro, USDCX_TOKEN_CONTRACT, "usdcx-token"⟩] ∧
    (Decimal.mk 5 [0, 0]).micro = 5000000 :=
  c3_withdrawal_postcondition ⟨5, [0, 0]⟩ (List.replicate 20 17) "SPSOURCE" _ (by decide)

/-! ## C4 — amount conversion: no rejection of extra fractional digits -/

/-- C4 is false as stated: `toMicroUSDC` does not fail on "1.1234567"
(7 fractional digits); it silently floors and returns exactly the same
value `1123456` that "1.123456" yields. -/
theorem c4_claim_false :
    toMicroUSDC ⟨1, [1, 2, 3, 4, 5, 6, 7]⟩ = .ok 1123456 ∧
    toMicroUSDC ⟨1, [1, 2, 3, 4, 5, 6]⟩ = .ok 1123456 := by
  decide

/-- C4 (amended): for every positive decimal amount with at least 6
fractional digits, `toMicroUSDC` succeeds and silently floors: the result
is exactly the conversion of the amount truncated to its first 6
fractional digits — extra digits are dropped, never rejected. -/
theorem c4_silent_truncation (i : Nat) (ds : List Nat) (h6 : 6 ≤ ds.length)
    (hd : ∀ x ∈ ds, x < 10) (hpos : 0 < (Decimal.mk i ds).num) :
    toMicroUSDC ⟨i, ds⟩ = .ok ((Decimal.mk i (ds.take 6)).micro) := by
  unfold toMicroUSDC
  rw [if_neg (by omega)]
  congr 1
  rcases Nat.eq_or_lt_of_le h6 with heq | hlt
  · have htake : ds.take 6 = ds := by
      rw [heq]
      simp
    rw [htake]
  · have hsplit : ds = ds.take 6 ++ ds.drop 6 := (List.take_append_drop 6 ds).symm
    have hlt6 : (ds.take 6).length = 6 := by
      rw [List.length_take]; omega
    have hld : (ds.drop 6).length = ds.length - 6 := by
      rw [List.length_drop]
    have hdvlt : digitsVal (ds.drop 6) < 10 ^ (ds.length - 6) := by
      rw [← hld]
      exact digitsVal_lt _ fun x hx => hd x (List.mem_of_mem_drop hx)
    have hmicro1 : (Decimal.mk i ds).micro =
        (Decimal.mk i ds).num / 10 ^ (ds.length - 6) := by
      unfold Decimal.micro
      rw [if_neg (Nat.not_le.mpr hlt)]
    have hmicro2 : (Decimal.mk i (ds.take 6)).micro =
        i * 10 ^ 6 + digitsVal (ds.take 6) := by
      unfold Decimal.micro Decimal.num
      rw [if_pos (by rw [hlt6]), hlt6]
      norm_num
    have hdv : digitsVal ds =
        digitsVal (ds.take 6) * 10 ^ (ds.length - 6) + digitsVal (ds.drop 6) := by
      conv_lhs => rw [hsplit]
      rw [digitsVal_append, hld]
    have hpow : 10 ^ ds.length = 10 ^ 6 * 10 ^ (ds.length - 6) := by
      rw [← pow_add]
      congr 1
      omega
    have hkey : (Decimal.mk i ds).num =
        digitsVal (ds.drop 6) +
          (i * 10 ^ 6 + digitsVal (ds.take 6)) * 10 ^ (ds.length - 6) := by
      show i * 10 ^ ds.length + digitsVal ds = _
      rw [hdv, hpow]
      ring
    rw [hmicro1, hmicro2, hkey,
      Nat.add_mul_div_right _ _ (pow_pos (by norm_num) _),
      Nat.div_eq_of_lt hdvlt, Nat.zero_add]

/-- Witness for `c4_silent_truncation` at "1.1234567". -/
theorem c4_silent_truncation_witness :
    toMicroUSDC ⟨1, [1, 2, 3, 4, 5, 6, 7]⟩ =
      .ok ((Decimal.mk 1 [1, 2, 3, 4, 5, 6]).micro) :=
  c4_silent_truncation 1 [1, 2, 3, 4, 5, 6, 7] (by decide) (by decide) (by decide)

/-! ## C5 — deposit approval is strict-comparison and exact-amount -/

/-- C5: in every successfully prepared deposit, `requiresApproval` is true
exactly when the current allowance is strictly below the requested amount
(equal allowance gives `false`, one unit less gives `true`), and when an
approval step is built it approves exactly the requested amount. -/
theorem c5_requires_approval (amount : Decimal) (r : StacksAddress) (port : ChainPort)
    (d : DepositTransactionData)
    (h : (prepareDepositTransaction amount r port).1 = .ok d) :
    (d.requiresApproval = true ↔ port.allowance < parseUnits6 amount) ∧
    (port.allowance = parseUnits6 amount → d.requiresApproval = false) ∧
    (port.allowance + 1 = parseUnits6 amount → d.requiresApproval = true) ∧
    (d.requiresApproval = true →
      d.approvalTx = some ⟨USDC_CONTRACT, XRESERVE_CONTRACT, parseUnits6 amount⟩) ∧
    (d.requiresApproval = false → d.approvalTx = none) := by
  by_cases hmin : amount.num < 10 ^ amount.frac.length
  · simp [prepareDepositTransaction, hmin] at h
  · simp only [prepareDepositTransaction, hmin, if_false, if_neg hmin,
      Except.ok.injEq] at h
    subst h
    by_cases happ : port.allowance < parseUnits6 amount
    · refine ⟨by simp [happ], ?_, ?_, ?_, ?_⟩
      · intro he
        omega
      · intro _
        simp [happ]
      · intro _
        simp [happ]
      · intro hf
        simp [happ] at hf
    · refine ⟨by simp [happ], ?_, ?_, ?_, ?_⟩
      · intro _
        simp [happ]
      · intro he
        omega
      · intro ht
        simp [happ] at ht
      · intro _
        simp [happ]

/-- Witness for `c5_requires_approval`: amount "1" (1000000 micro) with
allowance exactly 1000000 — no approval required. -/
theorem c5_requires_approval_witness :
    ((⟨XRESERVE_CONTRACT,
        ⟨parseUnits6 ⟨1, []⟩, STACKS_DOMAIN, encodeStacksAddress ⟨26, List.replicate 20 5⟩,
          USDC_CONTRACT, 0, []⟩,
        0, 21000, false, none⟩ : DepositTransactionData).requiresApproval = true ↔
      (1000000 : Nat) < parseUnits6 ⟨1, []⟩) ∧
    ((1000000 : Nat) = parseUnits6 ⟨1, []⟩ →
      (⟨XRESERVE_CONTRACT,
        ⟨parseUnits6 ⟨1, []⟩, STACKS_DOMAIN, encodeStacksAddress ⟨26, List.replicate 20 5⟩,
          USDC_CONTRACT, 0, []⟩,
        0, 21000, false, none⟩ : DepositTransactionData).requiresApproval = false) ∧
    ((1000000 : Nat) + 1 = parseUnits6 ⟨1, []⟩ →
      (⟨XRESERVE_CONTRACT,
        ⟨parseUnits6 ⟨1, []⟩, STACKS_DOMAIN, encodeStacksAddress ⟨26, List.replicate 20 5⟩,
          USDC_CONTRACT, 0, []⟩,
        0, 21000, false, none⟩ : DepositTransactionData).requiresApproval = true) ∧
    ((⟨XRESERVE_CONTRACT,
        ⟨parseUnits6 ⟨1, []⟩, STACKS_DOMAIN, encodeStacksAddress ⟨26, List.replicate 20 5⟩,
          USDC_CONTRACT, 0, []⟩,
        0, 21000, false, none⟩ : DepositTransactionData).requiresApproval = true →
      (⟨XRESERVE_CONTRACT,
        ⟨parseUnits6 ⟨1, []⟩, STACKS_DOMAIN, encodeStacksAddress ⟨26, List.replicate 20 5⟩,
          USDC_CONTRACT, 0, []⟩,
        0, 21000, false, none⟩ : DepositTransactionData).approvalTx =
        some ⟨USDC_CONTRACT, XRESERVE_CONTRACT, parseUnits6 ⟨1, []⟩⟩) ∧
    ((⟨XRESERVE_CONTRACT,
        ⟨parseUnits6 ⟨1, []⟩, STACKS_DOMAIN, encodeStacksAddress ⟨26, List.replicate 20 5⟩,
          USDC_CONTRACT, 0, []⟩,
        0, 21000, false, none⟩ : DepositTransactionData).requiresApproval = false →
      (⟨XRESERVE_CONTRACT,
        ⟨parseUnits6 ⟨1, []⟩, STACKS_DOMAIN, encodeStacksAddress ⟨26, List.replicate 20 5⟩,
          USDC_CONTRACT, 0, []⟩,
        0, 21000, false, none⟩ : DepositTransactionData).approvalTx = none) :=
  c5_requires_approval ⟨1, []⟩ ⟨26, List.replicate 20 5⟩ ⟨1000000, 21000⟩ _ (by decide)

/-! ## C6 — minimum enforcement fails fast, before any network call -/

/-- C6: preparation fails with the below-minimum error exactly when the
amount is below the direction's minimum; a failing deposit performs zero
chain-query port calls (the port-call counter of the returned pair is 0),
while an at-or-above-minimum deposit succeeds (performing its two port
calls); withdrawal of exactly "4.80" succeeds and "4.79" fails, the
withdrawal preparer performing no chain read in either case. -/
theorem c6_minimum_fail_fast :
    (∀ (amount : Decimal) (r : StacksAddress) (port : ChainPort),
      amount.num < 10 ^ amount.frac.length →
      prepareDepositTransaction amount r port =
        (.error "Minimum deposit is 1 USDC on testnet", 0)) ∧
    (∀ (amount : Decimal) (r : StacksAddress) (port : ChainPort),
      ¬ amount.num < 10 ^ amount.frac.length →
      ∃ d, prepareDepositTransaction amount r port = (.ok d, 2)) ∧
    (∀ (amount : Decimal) (eth : List Nat) (src : String),
      amount.micro < 4800000 →
      prepareWithdrawalTransaction amount eth src =
        .error "Minimum withdrawal is 4.80 USDCx") ∧
    (∀ (amount : Decimal) (eth : List Nat) (src : String),
      4800000 ≤ amount.micro →
      ∃ d, prepareWithdrawalTransaction amount eth src = .ok d) ∧
    (∃ d, prepareWithdrawalTransaction ⟨4, [8, 0]⟩ (List.replicate 20 17) "SPSOURCE" =
      .ok d) ∧
    prepareWithdrawalTransaction ⟨4, [7, 9]⟩ (List.replicate 20 17) "SPSOURCE" =
      .error "Minimum withdrawal is 4.80 USDCx" := by
  refine ⟨?_, ?_, ?_, ?_, ?_, ?_⟩
  · intro amount r port hmin
    simp [prepareDepositTransaction, hmin]
  · intro amount r port hmin
    refine ⟨⟨XRESERVE_CONTRACT,
      ⟨parseUnits6 amount, STACKS_DOMAIN, encodeStacksAddress r, USDC_CONTRACT, 0, []⟩,
      0, port.estimatedGas, decide (port.allowance < parseUnits6 amount),
      if port.allowance < parseUnits6 amount then
        some ⟨USDC_CONTRACT, XRESERVE_CONTRACT, parseUnits6 amount⟩
      else none⟩, ?_⟩
    unfold prepareDepositTransaction
    rw [if_neg hmin]
  · intro amount eth src hmin
    simp [prepareWithdrawalTransaction, hmin]
  · intro amount eth src hmin
    refine ⟨⟨STACKS_USDCX_ADDRESS, STACKS_USDCX_NAME, "burn",
      [.uint amount.micro, .uint ETHEREUM_DOMAIN, .buffer (padEthereumAddress eth)],
      [⟨src, amount.micro, USDCX_TOKEN_CONTRACT, "usdcx-token"⟩], "0.01 STX"⟩, ?_⟩
    unfold prepareWithdrawalTransaction
    rw [if_neg (Nat.not_lt.mpr hmin)]
  · exact ⟨⟨STACKS_USDCX_ADDRESS, STACKS_USDCX_NAME, "burn",
      [.uint 4800000, .uint ETHEREUM_DOMAIN,
       .buffer (padEthereumAddress (List.replicate 20 17))],
      [⟨"SPSOURCE", 4800000, USDCX_TOKEN_CONTRACT, "usdcx-token"⟩], "0.01 STX"⟩,
      by decide⟩
  · decide

/-- Witness for `c6_minimum_fail_fast`: a deposit of "0.5" fails with zero
port calls; a withdrawal of "4.79" fails. -/
theorem c6_minimum_fail_fast_witness :
    prepareDepositTransaction ⟨0, [5]⟩ ⟨26, List.replicate 20 5⟩ ⟨7777, 21000⟩ =
      (.error "Minimum deposit is 1 USDC on testnet", 0) ∧
    prepareWithdrawalTransaction ⟨4, [7, 9]⟩ (List.replicate 20 17) "SPSOURCE" =
      .error "Minimum withdrawal is 4.80 USDCx" :=
  ⟨c6_minimum_fail_fast.1 ⟨0, [5]⟩ ⟨26, List.replicate 20 5⟩ ⟨7777, 21000⟩ (by decide),
   c6_minimum_fail_fast.2.2.1 ⟨4, [7, 9]⟩ (List.replicate 20 17) "SPSOURCE" (by decide)⟩

/-! ## C7 — confirmation count can regress with no anomaly -/

/-- C7 is false as stated: for the same transaction identifier the Stacks
tracker reports 6 confirmations at chain tip 105 and, on a later poll after
a reorg lowered the tip to 102, reports 3 — a lower count — while returning
an ordinary confirming status with no error message; no
AnomalousStateRegression is raised (nothing of the kind exists in the
code or in the status record type). -/
theorem c7_claim_false :
    (getStacksTransactionStatus "tx1" (some ⟨.success, some 100, none⟩) 105).confirmations
      = 6 ∧
    (getStacksTransactionStatus "tx1" (some ⟨.success, some 100, none⟩) 105).state
      = .attesting ∧
    (getStacksTransactionStatus "tx1" (some ⟨.success, some 100, none⟩) 102).confirmations
      = 3 ∧
    (getStacksTransactionStatus "tx1" (some ⟨.success, some 100, none⟩) 102).state
      = .confirming ∧
    (getStacksTransactionStatus "tx1" (some ⟨.success, some 100, none⟩) 102).errorMessage
      = none := by
  decide

/-- C7 (amended): the status tracker is stateless — every poll recomputes
`confirmationCount` from the current chain tip — so a later poll of the
same transaction at a strictly lower tip reports a strictly lower count,
returned as an ordinary confirming/attesting status with no error message;
the regression is presented as ordinary progress. -/
theorem c7_stateless_regression (txId : String) (h tip tip2 : Nat)
    (hlt : tip2 < tip) :
    (getStacksTransactionStatus txId (some ⟨.success, some h, none⟩) tip2).confirmations <
      (getStacksTransactionStatus txId (some ⟨.success, some h, none⟩) tip).confirmations ∧
    (getStacksTransactionStatus txId (some ⟨.success, some h, none⟩) tip2).errorMessage
      = none ∧
    ((getStacksTransactionStatus txId (some ⟨.success, some h, none⟩) tip2).state
        = .confirming ∨
     (getStacksTransactionStatus txId (some ⟨.success, some h, none⟩) tip2).state
        = .attesting) := by
  refine ⟨?_, rfl, ?_⟩
  · show (tip2 : Int) - (h : Int) + 1 < (tip : Int) - (h : Int) + 1
    omega
  · by_cases h6 : (6 : Int) ≤ (tip2 : Int) - (h : Int) + 1
    · right
      show (if (6 : Int) ≤ (tip2 : Int) - (h : Int) + 1 then TxState.attesting
        else TxState.confirming) = TxState.attesting
      rw [if_pos h6]
    · left
      show (if (6 : Int) ≤ (tip2 : Int) - (h : Int) + 1 then TxState.attesting
        else TxState.confirming) = TxState.confirming
      rw [if_neg h6]

/-- Witness for `c7_stateless_regression`: block 100, first tip 105, later
tip 102. -/
theorem c7_stateless_regression_witness :
    (getStacksTransactionStatus "tx1" (some ⟨.success, some 100, none⟩) 102).confirmations <
      (getStacksTransactionStatus "tx1" (some ⟨.success, some 100, none⟩) 105).confirmations ∧
    (getStacksTransactionStatus "tx1" (some ⟨.success, some 100, none⟩) 102).errorMessage
      = none ∧
    ((getStacksTransactionStatus "tx1" (some ⟨.success, some 100, none⟩) 102).state
        = .confirming ∨
     (getStacksTransactionStatus "tx1" (some ⟨.success, some 100, none⟩) 102).state
        = .attesting) :=
  c7_stateless_regression "tx1" 100 105 102 (by decide)

/-! ## C8 — no fabricated Completed state -/

/-- C8: neither tracker ever reports the Completed state for any chain
response; once the confirmation threshold is reached (6 for Stacks, 12 for
Ethereum) the trackers report Attesting and stay there. -/
theorem c8_no_fabricated_completed (txId : String) (resp : Option StacksTxRecord)
    (tip : Nat) (rcpt : Option EthReceipt) (blk : Nat) :
    (getStacksTransactionStatus txId resp tip).state ≠ .completed ∧
    (getEthereumTransactionStatus txId rcpt blk).state ≠ .completed ∧
    (∀ h : Nat, (6 : Int) ≤ (tip : Int) - (h : Int) + 1 →
      (getStacksTransactionStatus txId (some ⟨.success, some h, none⟩) tip).state
        = .attesting) ∧
    (∀ bn : Nat, (12 : Int) ≤ (blk : Int) - (bn : Int) →
      (getEthereumTransactionStatus txId (some ⟨true, bn⟩) blk).state = .attesting) := by
  refine ⟨?_, ?_, ?_, ?_⟩
  · rcases resp with _ | ⟨st, bh, r⟩
    · intro hc
      cases hc
    · cases st <;> try (intro hc; cases hc)
      cases bh
      · intro hc
        cases hc
      · simp only [getStacksTransactionStatus]
        split <;> simp
  · rcases rcpt with _ | ⟨s, bn⟩
    · intro hc
      cases hc
    · cases s
      · intro hc
        cases hc
      · simp only [getEthereumTransactionStatus]
        split
        · split <;> simp
        · simp
  · intro h hthr
    show (if (6 : Int) ≤ (tip : Int) - (h : Int) + 1 then TxState.attesting
      else TxState.confirming) = TxState.attesting
    rw [if_pos hthr]
  · intro bn hthr
    have hnl : ¬ ((blk : Int) - (bn : Int) < 12) := by omega
    show (if (blk : Int) - (bn : Int) < 12 then
        (⟨.confirming, (blk : Int) - (bn : Int), ethExplorerUrl txId,
          some (toString ((12 - ((blk : Int) - (bn : Int))) * 12) ++ " seconds"),
          none⟩ : TransactionStatus)
      else
        ⟨.attesting, (blk : Int) - (bn : Int), ethExplorerUrl txId,
          some "~15 minutes (attestation in progress)", none⟩).state = TxState.attesting
    rw [if_neg hnl]

/-- Witness for `c8_no_fabricated_completed` at tip 106 / block 100
(7 confirmations) and block 50 / inclusion 30 (20 confirmations). -/
theorem c8_no_fabricated_completed_witness :
    (getStacksTransactionStatus "tx1" none 106).state ≠ .completed ∧
    (getEthereumTransactionStatus "tx1" none 50).state ≠ .completed ∧
    (getStacksTransactionStatus "tx1" (some ⟨.success, some 100, none⟩) 106).state
      = .attesting ∧
    (getEthereumTransactionStatus "tx1" (some ⟨true, 30⟩) 50).state = .attesting :=
  ⟨(c8_no_fabricated_completed "tx1" none 106 none 50).1,
   (c8_no_fabricated_completed "tx1" none 106 none 50).2.1,
   (c8_no_fabricated_completed "tx1" none 106 none 50).2.2.1 100 (by decide),
   (c8_no_fabricated_completed "tx1" none 106 none 50).2.2.2 30 (by decide)⟩

/-! ## C9 — read failure is indistinguishable from zero balance -/

/-- C9 is false as stated: on a failed chain read both balance readers
return the very string an actual zero balance produces ("0.000000" on
Stacks, "0.00" on Ethereum) — there is no distinguishable unknown
result. -/
theorem c9_claim_false :
    getUSDCxBalance (.error "RPC unavailable") = "0.000000" ∧
    getUSDCxBalance (.ok 0) = "0.000000" ∧
    getUSDCBalance (.error "RPC unavailable") = "0.00" ∧
    getUSDCBalance (.ok 0) = "0.00" := by
  refine ⟨by decide, by decide, by decide, by decide⟩

/-- C9 (amended): for every read failure the balance readers default to the
zero-balance string: the output for `error e` equals the output for an
actual zero balance, for both chains, so the two cases cannot be told
apart by the caller. -/
theorem c9_error_defaults_to_zero (e : String) :
    getUSDCxBalance (.error e) = getUSDCxBalance (.ok 0) ∧
    getUSDCBalance (.error e) = getUSDCBalance (.ok 0) :=
  ⟨rfl, rfl⟩

/-! ## C10 — the two confirmation formulas differ by one -/

/-- C10: the Stacks tracker computes `tip − blockHeight + 1` while the
Ethereum tracker computes `tip − blockNumber`; for a transaction whose
block equals the current tip the Stacks tracker reports 1 confirmation and
the Ethereum tracker 0, and for equal block depth the Stacks count is
always exactly one higher. -/
theorem c10_confirmation_formulas (txId : String) (tip h : Nat) :
    (getStacksTransactionStatus txId (some ⟨.success, some h, none⟩) tip).confirmations =
      (tip : Int) - (h : Int) + 1 ∧
    (getEthereumTransactionStatus txId (some ⟨true, h⟩) tip).confirmations =
      (tip : Int) - (h : Int) ∧
    (getStacksTransactionStatus txId (some ⟨.success, some h, none⟩) tip).confirmations =
      (getEthereumTransactionStatus txId (some ⟨true, h⟩) tip).confirmations + 1 ∧
    (getStacksTransactionStatus txId (some ⟨.success, some tip, none⟩) tip).confirmations
      = 1 ∧
    (getEthereumTransactionStatus txId (some ⟨true, tip⟩) tip).confirmations = 0 := by
  have hs : ∀ n m : Nat,
      (getStacksTransactionStatus txId (some ⟨.success, some m, none⟩) n).confirmations =
        (n : Int) - (m : Int) + 1 := by
    intro n m
    rfl
  have he : ∀ n m : Nat,
      (getEthereumTransactionStatus txId (some ⟨true, m⟩) n).confirmations =
        (n : Int) - (m : Int) := by
    intro n m
    show (if (n : Int) - (m : Int) < 12 then
        (⟨.confirming, (n : Int) - (m : Int), ethExplorerUrl txId,
          some (toString ((12 - ((n : Int) - (m : Int))) * 12) ++ " seconds"),
          none⟩ : TransactionStatus)
      else
        ⟨.attesting, (n : Int) - (m : Int), ethExplorerUrl txId,
          some "~15 minutes (attestation in progress)", none⟩).confirmations =
      (n : Int) - (m : Int)
    split <;> rfl
  refine ⟨hs tip h, he tip h, ?_, ?_, ?_⟩
  · rw [hs tip h, he tip h]
  · rw [hs tip tip]
    omega
  · rw [he tip tip]
    omega
